import Mathlib

/-! DataFlux ingestion-and-analysis pipeline — a shallow embedding.

This file embeds the core of the DataFlux pipeline in Lean 4:

* the Ingestion Gateway (`services/ingestion-service/src/main.py`):
  `detect_mime_type`, `check_duplicate`, `upload_asset`, `get_processing_status`,
  `trigger_reanalysis`, `update_asset_status`, `cache_asset_status`;
* the Analysis Dispatcher (`services/analysis-service/src/main.py`):
  `_get_analyzer_type`, `_get_asset_data`, `_store_analysis_results`,
  `_update_processing_status`, `_process_asset`;
* the analyzer plugin layer (`services/analysis-service/analyzers/`):
  `create_error_result`, `create_success_result`, and the fan-out/fan-in
  combination used by `VideoAnalyzer.analyze` and `AudioAnalyzer.analyze`.

Modelling conventions:

* UUIDs (`uuid.uuid4()`) are modelled by a fresh-id counter `nextId` in the
  system state; SHA-256 (`hashlib.sha256`) is abstracted as an arbitrary
  digest function `hashFn : List Nat → String` passed as a parameter — the
  claims proved here depend only on its determinism, which every Lean
  function has.
* The Postgres tables, the MinIO blob store, the Kafka topic and the Redis
  cache are lists inside one explicit `SysState`; `await`-points and I/O
  failures are driven by explicit environment records (`IngestEnv`,
  `DispatchEnv`) so that every control path of the Python code is a
  branch of a total function.
* Dispatcher runs additionally return an event trace (`Ev`): status writes,
  analyzer invocations, row inserts performed inside the storage
  transaction, and temp-file cleanup.
-/

namespace DataFlux

/-- JSON-like values, modelling the Python dicts carried in analyzer results
and database `metadata` columns. -/
inductive MetaVal where
  | s (v : String)
  | n (v : Nat)
  | q (v : Rat)
  | b (v : Bool)
  | dict (v : List (String × MetaVal))

/-- A row of the `assets` table, as written by `store_asset_metadata` and
mutated by `_update_processing_status` / `trigger_reanalysis` /
`update_asset_status`. -/
structure AssetRow where
  id : Nat
  filename : String
  file_hash : String
  file_size : Nat
  mime_type : String
  storage_path : String
  upload_context : Option String := none
  processing_status : String
  processing_priority : Nat := 5
  error_message : Option String := none
  updated_at : Nat := 0
deriving Repr, DecidableEq

/-- A row of the `entities` table (`store_asset_metadata` inserts one per
asset, carrying the upload context; `_get_asset_data` joins on it). -/
structure EntityRow where
  id : Nat
  entity_type : String := "asset"
  parent_id : Option String := none
  meta_context : Option String := none
deriving Repr, DecidableEq

/-- A segment as produced by an analyzer (a Python dict with keys
`type`, `start_time`, `end_time`, `confidence`, `metadata`). -/
structure SegIn where
  type : String
  start_time : Option Rat := none
  end_time : Option Rat := none
  confidence : Option Rat := none
  metadata : List (String × MetaVal) := []

/-- A feature as produced by an analyzer (keys `type`, `segment_id`,
`domain`, `confidence`, `data`, `metadata`). -/
structure FeatIn where
  type : String
  segment_id : Option Nat := none
  domain : Option String := none
  confidence : Option Rat := none
  data : List (String × MetaVal) := []
  metadata : List (String × MetaVal) := []

/-- An embedding as produced by an analyzer (keys `type`, `model`,
`vector`, `metadata`; `type` and `vector` are accessed with `[]` in
`_store_analysis_results`, so they are mandatory). -/
structure EmbIn where
  type : String
  model : Option String := none
  vector : List Rat := []
  metadata : List (String × MetaVal) := []

/-- The dict returned by `BaseAnalyzer`-style `analyze` methods. -/
structure AnalysisResult where
  segments : List SegIn := []
  features : List FeatIn := []
  embeddings : List EmbIn := []
  metadata : List (String × MetaVal) := []

/-- A row of the `segments` table, as inserted by `_store_analysis_results`. -/
structure SegRow where
  id : Nat
  asset_id : Nat
  segment_type : String
  start_marker : Rat
  end_marker : Rat
  confidence_score : Rat
  meta : List (String × MetaVal) := []

/-- A row of the `features` table, as inserted by `_store_analysis_results`.
The INSERT statement lists the columns
`(id, segment_id, feature_type, feature_domain, confidence_score,
feature_data, metadata)` — note that it carries no `asset_id` column. -/
structure FeatRow where
  id : Nat
  segment_id : Option Nat
  feature_type : String
  feature_domain : String
  confidence_score : Rat
  feature_data : List (String × MetaVal) := []
  meta : List (String × MetaVal) := []

/-- A row of the `embeddings` table, as inserted by
`_store_analysis_results` (`entity_id` is always the asset id there). -/
structure EmbRow where
  id : Nat
  entity_id : Nat
  embedding_type : String
  embedding_model : String
  vector : List Rat
  dimensions : Nat
  meta : List (String × MetaVal) := []

/-- The relational store: the four tables this core touches. -/
structure Db where
  entities : List EntityRow := []
  assets : List AssetRow := []
  segments : List SegRow := []
  features : List FeatRow := []
  embeddings : List EmbRow := []

/-- One Redis entry written with `setex(f"asset:{id}", 3600, ...)`:
the key is live while `now < expires_at`. -/
structure CacheEntry where
  key : Nat
  status : String
  expires_at : Nat
deriving Repr, DecidableEq

/-- A Kafka work message as built by `publish_processing_message`. -/
structure WorkMessage where
  asset_id : Nat
  mime_type : String
  priority : Nat
  enqueued_at : Nat := 0
  service : String := "ingestion"
deriving Repr, DecidableEq

/-- One object in the MinIO bucket, as written by `store_file_in_minio`. -/
structure BlobObj where
  bucket : String
  object_name : String
  content : List Nat
  content_type : String
deriving Repr, DecidableEq

/-- The whole observable state shared by the two services: the relational
store, the blob store, the work queue, the status cache, a clock used for
cache TTLs, and the fresh-id supply standing in for `uuid.uuid4()`. -/
structure SysState where
  db : Db := {}
  blobs : List BlobObj := []
  queue : List WorkMessage := []
  cache : List CacheEntry := []
  now : Nat := 0
  nextId : Nat := 0

/-! ## Ingestion Gateway (`services/ingestion-service/src/main.py`) -/

/-- The final path component: the characters after the last `/`. -/
def lastComponent (cs : List Char) : List Char :=
  cs.foldl (fun acc c => if c = '/' then [] else acc ++ [c]) []

/-- Python's `str.lower()`, character-wise. -/
def lowerStr (s : String) : String :=
  String.mk (s.toList.map Char.toLower)

/-- Python's `str.startswith(p)`. -/
def startsWithStr (s p : String) : Bool :=
  p.toList.isPrefixOf s.toList

/-- `pathlib.Path(filename).suffix`: the extension of the last path
component including its dot; empty when the last dot is leading or
trailing (CPython keeps the suffix only when `0 < i < len(name) - 1`). -/
def pySuffix (filename : String) : String :=
  let cs := lastComponent filename.toList
  match ((List.range cs.length).filter (fun i => cs.get? i = some '.')).getLast? with
  | some i => if 0 < i ∧ i < cs.length - 1 then String.mk (cs.drop i) else ""
  | none => ""

/-- The fixed extension table of `detect_mime_type`. -/
def mime_map : List (String × String) :=
  [(".mp4", "video/mp4"), (".avi", "video/x-msvideo"), (".mov", "video/quicktime"),
   (".mkv", "video/x-matroska"), (".webm", "video/webm"),
   (".jpg", "image/jpeg"), (".jpeg", "image/jpeg"), (".png", "image/png"),
   (".gif", "image/gif"), (".bmp", "image/bmp"), (".tiff", "image/tiff"),
   (".pdf", "application/pdf"), (".txt", "text/plain"),
   (".doc", "application/msword"),
   (".docx", "application/vnd.openxmlformats-officedocument.wordprocessingml.document"),
   (".mp3", "audio/mpeg"), (".wav", "audio/wav"), (".flac", "audio/flac"),
   (".ogg", "audio/ogg"), (".zip", "application/zip"), (".tar", "application/x-tar"),
   (".gz", "application/gzip")]

/-- `detect_mime_type(content, filename)`: despite receiving the bytes, it
derives the type from the lower-cased filename extension alone, with
`application/octet-stream` as the fallback. -/
def detect_mime_type (content : List Nat) (filename : String) : String :=
  (((mime_map.find? (fun p => p.1 = lowerStr (pySuffix filename))).map
      (fun p => p.2))).getD "application/octet-stream"

/-- The priority multiplier table of `calculate_processing_eta`. -/
def priority_multiplier (p : Nat) : Rat :=
  match p with
  | 1 => 1/2 | 2 => 7/10 | 3 => 4/5 | 4 => 9/10 | 5 => 1
  | 6 => 11/10 | 7 => 6/5 | 8 => 3/2 | 9 => 2 | 10 => 3
  | _ => 1

/-- `calculate_processing_eta(file_size, priority)`. -/
def calculate_processing_eta (file_size : Nat) (priority : Nat) : Nat :=
  ((((file_size : Rat) / (1024 * 1024)) * priority_multiplier priority).floor).toNat

/-- `check_duplicate`: `SELECT id FROM assets WHERE file_hash = $1`. -/
def check_duplicate (file_hash : String) (db : Db) : Option Nat :=
  (db.assets.find? (fun a => a.file_hash = file_hash)).map (fun a => a.id)

/-- `SELECT * FROM assets WHERE id = $1`. -/
def lookupAsset (db : Db) (aid : Nat) : Option AssetRow :=
  db.assets.find? (fun a => a.id = aid)

/-- The status of an asset as recorded in the durable store. -/
def assetStatus (db : Db) (aid : Nat) : Option String :=
  (lookupAsset db aid).map (fun a => a.processing_status)

/-- The `last_error` of an asset as recorded in the durable store. -/
def assetError (db : Db) (aid : Nat) : Option (Option String) :=
  (lookupAsset db aid).map (fun a => a.error_message)

/-- `redis.setex(f"asset:{id}", 3600, ...)`: overwrite the key, arming a
fresh TTL. -/
def cacheSet (c : List CacheEntry) (key : Nat) (status : String)
    (expires_at : Nat) : List CacheEntry :=
  (c.filter (fun e => e.key ≠ key)) ++ [⟨key, status, expires_at⟩]

/-- `redis.get(f"asset:{id}")`: a hit only while the TTL has not expired. -/
def cacheGet (c : List CacheEntry) (now : Nat) (key : Nat) : Option CacheEntry :=
  c.find? (fun e => e.key = key && now < e.expires_at)

/-- `cache_asset_status`: cache the status under a 3600-second TTL. -/
def cache_asset_status (s : SysState) (aid : Nat) (status : String) : SysState :=
  { s with cache := cacheSet s.cache aid status (s.now + 3600) }

/-- `publish_processing_message`: append the work message to the
`asset-processing` topic. -/
def publish_processing_message (s : SysState) (aid : Nat) (mime_type : String)
    (priority : Nat) : SysState :=
  { s with queue := s.queue ++ [⟨aid, mime_type, priority, s.now, "ingestion"⟩] }

/-- The multipart upload handed to `upload_asset`. -/
structure Upload where
  filename : String
  content : List Nat
  context : Option String := none
  priority : Nat := 5
  collection_id : Option String := none

/-- The environment of one `upload_asset` call: whether the MinIO
`put_object` raises `S3Error`. -/
structure IngestEnv where
  minioFail : Bool := false

/-- The response model of `POST /api/v1/assets`. -/
structure AssetResponse where
  id : Nat
  filename : String
  file_hash : String
  file_size : Nat
  mime_type : String
  status : String
  processing_eta : Option Nat := none
  duplicate : Bool := false
deriving Repr, DecidableEq

/-- A FastAPI handler outcome: a payload or an `HTTPException`. -/
inductive HttpOut (α : Type) where
  | ok (v : α)
  | err (code : Nat) (detail : String)
deriving Repr, DecidableEq

/-- `store_asset_metadata`: insert the `entities` row, then the `assets`
row with `processing_status = "queued"`. -/
def store_asset_metadata (s : SysState) (aid : Nat) (filename file_hash : String)
    (file_size : Nat) (mime_type storage_path : String) (context : Option String)
    (priority : Nat) (collection_id : Option String) : SysState :=
  { s with db :=
    { s.db with
      entities := s.db.entities ++ [⟨aid, "asset", collection_id, context⟩],
      assets := s.db.assets ++
        [{ id := aid, filename := filename, file_hash := file_hash,
           file_size := file_size, mime_type := mime_type,
           storage_path := storage_path, upload_context := context,
           processing_status := "queued", processing_priority := priority,
           error_message := none, updated_at := s.now }] } }

/-- `upload_asset` (`POST /api/v1/assets`): hash, duplicate check, blob
write, metadata insert, queue publish, cache write — in that order.
`hashFn` abstracts `hashlib.sha256(...).hexdigest()`. -/
def upload_asset (hashFn : List Nat → String) (env : IngestEnv) (up : Upload)
    (s : SysState) : HttpOut AssetResponse × SysState :=
  let file_hash := hashFn up.content
  let mime_type := detect_mime_type up.content up.filename
  match check_duplicate file_hash s.db with
  | some existing_id =>
    match lookupAsset s.db existing_id with
    | some a =>
      (.ok { id := a.id, filename := a.filename, file_hash := a.file_hash,
             file_size := a.file_size, mime_type := a.mime_type,
             status := a.processing_status, processing_eta := none,
             duplicate := true }, s)
    | none => (.err 500 "asset row missing", s)
  | none =>
    let asset_id := s.nextId
    let s0 : SysState := { s with nextId := s.nextId + 1 }
    let object_name := toString asset_id ++ "/" ++ up.filename
    if env.minioFail then (.err 500 "Failed to store file", s0)
    else
      let s1 := { s0 with blobs := s0.blobs ++
        [⟨"dataflux-assets", object_name, up.content, mime_type⟩] }
      let s2 := store_asset_metadata s1 asset_id up.filename file_hash
        up.content.length mime_type object_name up.context up.priority
        up.collection_id
      let s3 := publish_processing_message s2 asset_id mime_type up.priority
      let s4 := cache_asset_status s3 asset_id "queued"
      (.ok { id := asset_id, filename := up.filename, file_hash := file_hash,
             file_size := up.content.length, mime_type := mime_type,
             status := "queued",
             processing_eta := some (calculate_processing_eta up.content.length up.priority),
             duplicate := false }, s4)

/-- The response model of `GET /api/v1/assets/{id}/status`. -/
structure ProcStatus where
  asset_id : Nat
  status : String
deriving Repr, DecidableEq

/-- `get_processing_status`: read-through — Redis first, the `assets` table
on a miss, 404 when the asset does not exist. -/
def get_processing_status (s : SysState) (aid : Nat) : HttpOut ProcStatus :=
  match cacheGet s.cache s.now aid with
  | some e => .ok ⟨aid, e.status⟩
  | none =>
    match lookupAsset s.db aid with
    | some a => .ok ⟨aid, a.processing_status⟩
    | none => .err 404 "Asset not found"

/-- `UPDATE assets SET ... WHERE id = $n`: rewrite the matching rows. -/
def updateAssetRows (db : Db) (aid : Nat) (f : AssetRow → AssetRow) : Db :=
  { db with assets := db.assets.map (fun a => if a.id = aid then f a else a) }

/-- `trigger_reanalysis` (`POST /api/v1/assets/{id}/analyze`): 404 when
missing, 409 when `processing` and not forced, otherwise reset to
`queued` and re-publish a work message. -/
def trigger_reanalysis (s : SysState) (aid : Nat) (force : Bool)
    (priority : Nat) : HttpOut String × SysState :=
  match lookupAsset s.db aid with
  | none => (.err 404 "Asset not found", s)
  | some a =>
    if force = false ∧ a.processing_status = "processing" then
      (.err 409 "Asset is already being processed", s)
    else
      let s1 := { s with db := updateAssetRows s.db aid (fun r =>
        { r with processing_status := "queued", processing_priority := priority }) }
      let s2 := publish_processing_message s1 aid a.mime_type priority
      (.ok "Re-analysis triggered", s2)

/-- `update_asset_status` (`PUT /api/v1/assets/{id}/status`): the handler
writes the client-supplied status unconditionally, but then crashes:
`get_redis` is an async *generator*, so `await get_redis()` raises
`TypeError` right after the DB write (interpreter wording abbreviated
here), and the blanket `except` converts every exception — including the
missing/empty-status `HTTPException(400)`, whose text becomes the 500
detail — into a 500 response. The `setex` cache refresh after the
`await` is unreachable dead code, so the cache is never touched. -/
def update_asset_status (s : SysState) (aid : Nat) (status_update : Option String) :
    HttpOut String × SysState :=
  match status_update with
  | none => (.err 500 "400: Status is required", s)
  | some st =>
    if st = "" then (.err 500 "400: Status is required", s)
    else
      let s1 := { s with db := updateAssetRows s.db aid (fun r =>
        { r with processing_status := st, updated_at := s.now }) }
      (.err 500 "TypeError: object async_generator can not be awaited", s1)

/-! ## Analyzer plugin layer (`services/analysis-service/analyzers/`) -/

/-- `BaseAnalyzer.create_error_result`: empty result marked failed only in
its own metadata. -/
def create_error_result (name error : String) : AnalysisResult :=
  { segments := [], features := [], embeddings := [],
    metadata := [("error", .s error), ("analyzer", .s name), ("status", .s "failed")] }

/-- `BaseAnalyzer.create_success_result`: extend the analyzer metadata with
the attribution and a success marker. -/
def create_success_result (name : String) (segments : List SegIn)
    (features : List FeatIn) (embeddings : List EmbIn)
    (metadata : List (String × MetaVal)) : AnalysisResult :=
  { segments := segments, features := features, embeddings := embeddings,
    metadata := metadata ++ [("analyzer", .s name), ("status", .s "success")] }

/-- The contribution of one sub-probe (the dict each `_detect_*` /
`_extract_*` coroutine returns). -/
structure ProbeOut where
  segments : List SegIn := []
  features : List FeatIn := []
  embeddings : List EmbIn := []

/-- Whether a gathered task slot holds a result rather than an exception
(`not isinstance(result, Exception)`). -/
def probeOk (r : Except String ProbeOut) : Bool :=
  match r with
  | .ok _ => true
  | .error _ => false

/-- The fan-in loop over `asyncio.gather(..., return_exceptions=True)`:
exceptions are skipped, dict results have their `segments` extended in
task order. -/
def gatherSegments (rs : List (Except String ProbeOut)) : List SegIn :=
  rs.foldr (fun r acc => match r with | .ok d => d.segments ++ acc | .error _ => acc) []

/-- Fan-in of the `features` lists, in task order. -/
def gatherFeatures (rs : List (Except String ProbeOut)) : List FeatIn :=
  rs.foldr (fun r acc => match r with | .ok d => d.features ++ acc | .error _ => acc) []

/-- Fan-in of the `embeddings` lists, in task order. -/
def gatherEmbeddings (rs : List (Except String ProbeOut)) : List EmbIn :=
  rs.foldr (fun r acc => match r with | .ok d => d.embeddings ++ acc | .error _ => acc) []

/-- The environment of one `VideoAnalyzer.analyze` run: the outcome of
`validate_file` and of the four gathered sub-probes, plus whatever
`_get_video_info` reports. -/
structure VideoProbes where
  validateOk : Bool := true
  detect_scenes : Except String ProbeOut := .ok {}
  extract_frames : Except String ProbeOut := .ok {}
  analyze_audio : Except String ProbeOut := .ok {}
  detect_objects : Except String ProbeOut := .ok {}
  video_info : List (String × MetaVal) := []

/-- `VideoAnalyzer.analyze`: reject invalid files with an error result,
otherwise gather the four sub-probes, drop the failed ones, and return a
success result whose metadata records only the task counts. -/
def video_analyze (env : VideoProbes) : AnalysisResult :=
  if env.validateOk = false then create_error_result "VideoAnalyzer" "Invalid file"
  else
    let results := [env.detect_scenes, env.extract_frames, env.analyze_audio,
      env.detect_objects]
    create_success_result "VideoAnalyzer" (gatherSegments results)
      (gatherFeatures results) (gatherEmbeddings results)
      [("video_info", .dict env.video_info),
       ("analysis_tasks", .n results.length),
       ("successful_tasks", .n (results.countP probeOk))]

/-- The environment of one `AudioAnalyzer.analyze` run: `validate_file`
and the three gathered sub-probes. -/
structure AudioProbes where
  validateOk : Bool := true
  analyze_audio_properties : Except String ProbeOut := .ok {}
  extract_features : Except String ProbeOut := .ok {}
  detect_speech : Except String ProbeOut := .ok {}
  audio_info : List (String × MetaVal) := []

/-- `AudioAnalyzer.analyze`: same fan-out/fan-in shape with three
sub-probes; the success metadata records only `audio_info`. -/
def audio_analyze (env : AudioProbes) : AnalysisResult :=
  if env.validateOk = false then create_error_result "AudioAnalyzer" "Invalid file"
  else
    let results := [env.analyze_audio_properties, env.extract_features,
      env.detect_speech]
    create_success_result "AudioAnalyzer" (gatherSegments results)
      (gatherFeatures results) (gatherEmbeddings results)
      [("audio_info", .dict env.audio_info)]

/-- Lookup in an analyzer result's metadata dict. -/
def metaLookup (key : String) (m : List (String × MetaVal)) : Option MetaVal :=
  (m.find? (fun p => p.1 = key)).map (fun p => p.2)

/-! ## Analysis Dispatcher (`services/analysis-service/src/main.py`) -/

/-- The keys of the `self.analyzers` dict built by `_init_analyzers`. -/
def analyzer_keys : List String := ["video", "image", "audio", "document"]

/-- `_get_analyzer_type`: dispatch on the media-type prefix, with
`document` as the fallback. -/
def get_analyzer_type (mime_type : String) : String :=
  if startsWithStr mime_type "video/" then "video"
  else if startsWithStr mime_type "image/" then "image"
  else if startsWithStr mime_type "audio/" then "audio"
  else if startsWithStr mime_type "application/pdf" || startsWithStr mime_type "text/" then
    "document"
  else "document"

/-- `_get_asset_data`: `SELECT a.*, e.metadata FROM assets a JOIN entities e
ON a.id = e.id WHERE a.id = $1` — a row only when both tables have one. -/
def get_asset_data (db : Db) (aid : Nat) : Option AssetRow :=
  match lookupAsset db aid with
  | some a => if db.entities.any (fun e => e.id = aid) then some a else none
  | none => none

/-- The kind of row written inside the storage transaction. -/
inductive RowKind where
  | segment
  | feature
  | embedding
deriving Repr, DecidableEq

/-- Observable dispatcher events, in program order. -/
inductive Ev where
  | statusWrite (asset_id : Nat) (status : String) (error : Option String)
  | analyzerInvoke (asset_id : Nat) (analyzer_type : String)
  | rowInsert (kind : RowKind) (row_id : Nat)
  | tempRemove (path : String)
  | handlerCrash (error : String)
deriving Repr, DecidableEq

/-- Whether an event is an analyzer invocation. -/
def Ev.isInvoke : Ev → Bool
  | .analyzerInvoke _ _ => true
  | _ => false

/-- The environment of one `_process_asset` run: whether `_download_file`
raises, what each analyzer returns (the analyzers catch all their own
exceptions, so the invocation itself is total), which INSERTs inside the
storage transaction raise (keyed by the fresh row id), and how long the
awaited `analyzer.analyze` call takes. -/
structure DispatchEnv where
  downloadFail : Option String := none
  analyzeResult : String → AnalysisResult := fun _ => {}
  execFail : Nat → Option String := fun _ => none
  analyzeDuration : Nat := 0

/-- `_update_processing_status`: one unconditional UPDATE of the asset row
(status, `updated_at`, and `error_message` — the latter is nulled when no
error is passed). It touches nothing but the `assets` table. -/
def update_processing_status (s : SysState) (aid : Nat) (status : String)
    (error : Option String) : SysState × List Ev :=
  ({ s with db := updateAssetRows s.db aid (fun a =>
      { a with processing_status := status, updated_at := s.now,
               error_message := error }) },
   [.statusWrite aid status error])

/-- The segment row built by the segments loop of
`_store_analysis_results` (defaults 0 for missing markers/confidence). -/
def mkSegRow (aid n : Nat) (seg : SegIn) : SegRow :=
  { id := n, asset_id := aid, segment_type := seg.type,
    start_marker := seg.start_time.getD 0, end_marker := seg.end_time.getD 0,
    confidence_score := seg.confidence.getD 0, meta := seg.metadata }

/-- The feature row built by the features loop: the analyzer-supplied
`segment_id` is stored verbatim and no asset reference is recorded. -/
def mkFeatRow (n : Nat) (f : FeatIn) : FeatRow :=
  { id := n, segment_id := f.segment_id, feature_type := f.type,
    feature_domain := f.domain.getD "general",
    confidence_score := f.confidence.getD 0, feature_data := f.data,
    meta := f.metadata }

/-- The embedding row built by the embeddings loop: `entity_id` is always
the asset id, `dimensions` the vector length. -/
def mkEmbRow (aid n : Nat) (e : EmbIn) : EmbRow :=
  { id := n, entity_id := aid, embedding_type := e.type,
    embedding_model := e.model.getD "unknown", vector := e.vector,
    dimensions := e.vector.length, meta := e.metadata }

/-- The segments loop: fresh ids from `n`; `execFail` says which INSERTs
raise (keyed by the fresh row id); the first failing INSERT aborts the
transaction with its exception. -/
def storeSegs (execFail : Nat → Option String) (aid : Nat) :
    List SegIn → Nat → Except String (List SegRow × List Ev × Nat)
  | [], n => .ok ([], [], n)
  | seg :: rest, n =>
    match execFail n with
    | some e => .error e
    | none =>
      match storeSegs execFail aid rest (n + 1) with
      | .error e => .error e
      | .ok (rows, evs, n1) =>
        .ok (mkSegRow aid n seg :: rows, .rowInsert .segment n :: evs, n1)

/-- The features loop, after all segments. -/
def storeFeats (execFail : Nat → Option String) :
    List FeatIn → Nat → Except String (List FeatRow × List Ev × Nat)
  | [], n => .ok ([], [], n)
  | f :: rest, n =>
    match execFail n with
    | some e => .error e
    | none =>
      match storeFeats execFail rest (n + 1) with
      | .error e => .error e
      | .ok (rows, evs, n1) =>
        .ok (mkFeatRow n f :: rows, .rowInsert .feature n :: evs, n1)

/-- The embeddings loop, after all features. -/
def storeEmbs (execFail : Nat → Option String) (aid : Nat) :
    List EmbIn → Nat → Except String (List EmbRow × List Ev × Nat)
  | [], n => .ok ([], [], n)
  | e :: rest, n =>
    match execFail n with
    | some err => .error err
    | none =>
      match storeEmbs execFail aid rest (n + 1) with
      | .error err => .error err
      | .ok (rows, evs, n1) =>
        .ok (mkEmbRow aid n e :: rows, .rowInsert .embedding n :: evs, n1)

/-- `_store_analysis_results`: one transaction writing all segments, then
all features, then all embeddings; on any failure nothing commits and the
exception propagates to the caller. -/
def store_analysis_results (execFail : Nat → Option String) (aid : Nat)
    (r : AnalysisResult) (s : SysState) : Except String (SysState × List Ev) :=
  match storeSegs execFail aid r.segments s.nextId with
  | .error e => .error e
  | .ok (segRows, ev1, n1) =>
    match storeFeats execFail r.features n1 with
    | .error e => .error e
    | .ok (featRows, ev2, n2) =>
      match storeEmbs execFail aid r.embeddings n2 with
      | .error e => .error e
      | .ok (embRows, ev3, n3) =>
        .ok ({ s with
                db := { s.db with
                  segments := s.db.segments ++ segRows,
                  features := s.db.features ++ featRows,
                  embeddings := s.db.embeddings ++ embRows },
                nextId := n3 },
             ev1 ++ ev2 ++ ev3)

/-- The temp path `_download_file` uses:
`/tmp/dataflux-analysis/{id}_{filename}`. -/
def tempPath (a : AssetRow) : String :=
  "/tmp/dataflux-analysis/" ++ toString a.id ++ "_" ++ a.filename

/-- A consumed Kafka message (`message.value`): the handler `.get`s the
keys, so each may be absent. -/
structure Msg where
  asset_id : Option Nat := none
  mime_type : Option String := none
  priority : Nat := 5
deriving Repr, DecidableEq

/-- `_process_asset`, the dispatcher's message handler, with its event
trace. Control flow mirrors the Python: messages without an asset id are
dropped; the status is set to `processing` unconditionally before any
other check; an exception caught by the outer handler sets `failed` with
the exception text — except when the media type is missing, where the
handler itself crashes before that write (see the branch comment); the
temp file is removed in the `finally` block around the analyze/store
section; aggregation success sets `completed`. -/
def process_asset (env : DispatchEnv) (msg : Msg) (s : SysState) :
    SysState × List Ev :=
  match msg.asset_id with
  | none => (s, [])
  | some aid =>
    let (s1, e1) := update_processing_status s aid "processing" none
    match msg.mime_type with
    | none =>
      -- `_get_analyzer_type(None)` raises AttributeError as the first
      -- statement of the try block; the except handler then reads
      -- `analyzer_type` (still unbound) for the metrics label and raises
      -- UnboundLocalError *before* the failed UPDATE, so the asset stays
      -- `processing` and the exception escapes to `_process_messages`
      (s1, e1 ++ [.handlerCrash "UnboundLocalError: analyzer_type"])
    | some mt =>
      let analyzer_type := get_analyzer_type mt
      if analyzer_keys.contains analyzer_type = false then
        let (s2, e2) := update_processing_status s1 aid "failed"
          (some ("No analyzer for " ++ analyzer_type))
        (s2, e1 ++ e2)
      else
        match get_asset_data s1.db aid with
        | none =>
          let (s2, e2) := update_processing_status s1 aid "failed"
            (some "Asset not found")
          (s2, e1 ++ e2)
        | some asset =>
          match env.downloadFail with
          | some e =>
            let (s2, e2) := update_processing_status s1 aid "failed" (some e)
            (s2, e1 ++ e2)
          | none =>
            let path := tempPath asset
            let results := env.analyzeResult analyzer_type
            let evI := [Ev.analyzerInvoke aid analyzer_type]
            match store_analysis_results env.execFail aid results s1 with
            | .ok (s2, evW) =>
              let (s3, e3) := update_processing_status s2 aid "completed" none
              (s3, e1 ++ evI ++ evW ++ e3 ++ [.tempRemove path])
            | .error err =>
              let (s3, e3) := update_processing_status s1 aid "failed" (some err)
              (s3, e1 ++ evI ++ [.tempRemove path] ++ e3)

/-! ## Derived shapes, spec-side relation, fixtures -/

/-- The environment of one `DocumentAnalyzer.analyze` run (same fan-out
shape as the audio analyzer: `_extract_text`, `_analyze_content`,
`_extract_metadata`). -/
structure DocProbes where
  validateOk : Bool := true
  extract_text : Except String ProbeOut := .ok {}
  analyze_content : Except String ProbeOut := .ok {}
  extract_metadata : Except String ProbeOut := .ok {}
  document_info : List (String × MetaVal) := []

/-- `DocumentAnalyzer.analyze`. -/
def document_analyze (env : DocProbes) : AnalysisResult :=
  if env.validateOk = false then create_error_result "DocumentAnalyzer" "Invalid file"
  else
    let results := [env.extract_text, env.analyze_content, env.extract_metadata]
    create_success_result "DocumentAnalyzer" (gatherSegments results)
      (gatherFeatures results) (gatherEmbeddings results)
      [("document_info", .dict env.document_info)]

/-- The segment rows `_store_analysis_results` creates from a result,
with fresh ids counted from `n`. -/
def segRowsFrom (aid : Nat) : List SegIn → Nat → List SegRow
  | [], _ => []
  | seg :: rest, n => mkSegRow aid n seg :: segRowsFrom aid rest (n + 1)

/-- The feature rows created from a result, with fresh ids from `n`. -/
def featRowsFrom : List FeatIn → Nat → List FeatRow
  | [], _ => []
  | f :: rest, n => mkFeatRow n f :: featRowsFrom rest (n + 1)

/-- The embedding rows created from a result, with fresh ids from `n`. -/
def embRowsFrom (aid : Nat) : List EmbIn → Nat → List EmbRow
  | [], _ => []
  | e :: rest, n => mkEmbRow aid n e :: embRowsFrom aid rest (n + 1)

/-- `c` consecutive row-insert events of one kind, ids counted from `n`. -/
def rowEvs (k : RowKind) : Nat → Nat → List Ev
  | 0, _ => []
  | c + 1, n => .rowInsert k n :: rowEvs k c (n + 1)

/-- The asset id carried by a handler response. -/
def respId : HttpOut AssetResponse → Option Nat
  | .ok r => some r.id
  | .err _ _ => none

/-- The duplicate flag carried by a handler response. -/
def respDup : HttpOut AssetResponse → Option Bool
  | .ok r => some r.duplicate
  | .err _ _ => none

/-- Modelled from the spec (§4.6 of the specification): the set of legal
status transitions it declares — `queued→processing`,
`processing→completed`, `processing→failed`, and `{completed,failed}→queued`
only through an explicit re-analysis request. This definition follows the
spec wording, to be compared with what the code actually does. -/
def specAllowedTransition (src dst : String) (via_reanalysis : Bool) : Bool :=
  (src == "queued" && dst == "processing") ||
  (src == "processing" && (dst == "completed" || dst == "failed")) ||
  (via_reanalysis && (src == "completed" || src == "failed") && dst == "queued")

/-- Fixture: the single asset row used by the concrete runs, with a chosen
current status. -/
def exAsset (st : String) : AssetRow :=
  { id := 1, filename := "a.txt", file_hash := "h1", file_size := 5,
    mime_type := "text/plain", storage_path := "1/a.txt",
    processing_status := st, processing_priority := 5 }

/-- Fixture: a one-asset system state (entity row plus asset row). -/
def exState (st : String) : SysState :=
  { db := { entities := [{ id := 1 }], assets := [exAsset st] }, nextId := 2 }

/-- Fixture: the work message for asset 1. -/
def exMsg : Msg := { asset_id := some 1, mime_type := some "text/plain" }

/-- Fixture: a malformed work message for asset 1 with no media type. -/
def exMsgNoMime : Msg := { asset_id := some 1 }

/-- Fixture: a dispatcher environment where everything succeeds and the
(document) analyzer returns its all-probes-ok result. -/
def exEnv : DispatchEnv := { analyzeResult := fun _ => document_analyze {} }

/-- Fixture: a dispatcher environment whose analyzer invocation fails
inside the analyzer (`validate_file` is false), which the analyzer
converts into `create_error_result "Invalid file"`. -/
def exEnvBadFile : DispatchEnv :=
  { analyzeResult := fun _ => document_analyze { validateOk := false } }

/-- Fixture: the one-asset state with a still-live cache entry saying
`queued` (written at upload; TTL runs to 3700, clock at 100). -/
def exStateCached : SysState :=
  { db := { entities := [{ id := 1 }], assets := [exAsset "queued"] },
    cache := [⟨1, "queued", 3700⟩], now := 100, nextId := 2 }

/-- Fixture: a state that already holds a segment row of a *different*
asset (id 7, owned by asset 2), for the dangling-reference run. -/
def exStateSeg : SysState :=
  { db := { entities := [{ id := 1 }], assets := [exAsset "queued"],
            segments := [{ id := 7, asset_id := 2, segment_type := "scene",
                           start_marker := 0, end_marker := 1,
                           confidence_score := 1 }] },
    nextId := 10 }

/-- Fixture: a feature whose analyzer-supplied `segment_id` points at the
pre-existing segment 7 of the other asset. -/
def exFeatDangling : FeatIn :=
  { type := "object_person", segment_id := some 7,
    domain := some "visual", confidence := some (7/10) }

/-- Fixture: an analysis result with no segments and the one dangling
feature. -/
def exResultDangling : AnalysisResult := { features := [exFeatDangling] }

/-- Fixture: the state `_store_analysis_results` commits when persisting
`exResultDangling` for asset 1 on `exStateSeg` (one feature row written
with fresh id 10, fresh-id counter advanced to 11). -/
def exStoreOut : SysState :=
  { exStateSeg with
    db := { exStateSeg.db with features := [mkFeatRow 10 exFeatDangling] },
    nextId := 11 }

/-- Fixture: probe contributions for the audio analyzer runs. -/
def exProbeA : ProbeOut :=
  { features := [{ type := "audio_properties", domain := some "audio",
                   confidence := some (4/5) }] }

/-- Fixture: a second probe contribution. -/
def exProbeB : ProbeOut :=
  { features := [{ type := "speech_detected", domain := some "audio",
                   confidence := some (3/5) }] }

/-- Fixture: an audio run whose middle sub-probe raises while the other
two succeed. -/
def exAudioOneFailure : AudioProbes :=
  { analyze_audio_properties := .ok exProbeA,
    extract_features := .error "RuntimeError: probe crashed",
    detect_speech := .ok exProbeB }

/-- An audio fan-out in which exactly the first sub-probe raises. -/
def audioFailFst (a b : ProbeOut) (e : String)
    (info : List (String × MetaVal)) : AudioProbes :=
  { analyze_audio_properties := .error e, extract_features := .ok a,
    detect_speech := .ok b, audio_info := info }

/-- An audio fan-out in which exactly the middle sub-probe raises. -/
def audioFailSnd (a b : ProbeOut) (e : String)
    (info : List (String × MetaVal)) : AudioProbes :=
  { analyze_audio_properties := .ok a, extract_features := .error e,
    detect_speech := .ok b, audio_info := info }

/-- An audio fan-out in which exactly the last sub-probe raises. -/
def audioFailThd (a b : ProbeOut) (e : String)
    (info : List (String × MetaVal)) : AudioProbes :=
  { analyze_audio_properties := .ok a, extract_features := .ok b,
    detect_speech := .error e, audio_info := info }

/-- The result the audio analyzer builds from the two surviving
contributions when one sub-probe has failed. -/
def audioTwoProbeResult (a b : ProbeOut)
    (info : List (String × MetaVal)) : AnalysisResult :=
  { segments := a.segments ++ b.segments,
    features := a.features ++ b.features,
    embeddings := a.embeddings ++ b.embeddings,
    metadata := [("audio_info", .dict info),
      ("analyzer", .s "AudioAnalyzer"), ("status", .s "success")] }

/-- Fixture: a dispatcher environment whose blob download raises. -/
def exEnvDownFail : DispatchEnv :=
  { downloadFail := some "S3Error: connection refused",
    analyzeResult := fun _ => document_analyze {} }

/-- Fixture: a dispatcher environment where the analyzer produces one
feature and every INSERT of the storage transaction raises. -/
def exEnvStoreFail : DispatchEnv :=
  { analyzeResult := fun _ => exResultDangling,
    execFail := fun _ => some "UniqueViolationError" }

/-- Fixture: an abstract digest function for the ingestion runs. -/
def exHashFn : List Nat → String := fun _ => "h"

/-- Fixture: an upload of the bytes `[104, 105]` as `a.txt`. -/
def exUpload : Upload := { filename := "a.txt", content := [104, 105] }

/-- The row rewrite performed by the dispatcher's queued-to-processing
write: status `processing`, fresh `updated_at`, `error_message` nulled. -/
def procStatusRow (now : Nat) (a : AssetRow) : AssetRow :=
  { a with processing_status := "processing", updated_at := now,
           error_message := none }

/-- The state after a non-conflicting `trigger_reanalysis`: status reset
to `queued`, priority overwritten, one work message published. -/
def stateAfterReanalysis (s : SysState) (aid : Nat) (mime : String)
    (p : Nat) : SysState :=
  publish_processing_message
    { s with db := updateAssetRows s.db aid (fun r =>
        { r with processing_status := "queued", processing_priority := p }) }
    aid mime p

/-- The state after the PUT status endpoint: the requested status written
unconditionally to the durable store and nothing else — the cache
refresh in the source is dead code behind the failing `await
get_redis()`, so the cache is untouched. -/
def stateAfterStatusPut (s : SysState) (aid : Nat) (st : String) : SysState :=
  { s with
    db := updateAssetRows s.db aid (fun r =>
      { r with processing_status := st, updated_at := s.now }) }

/-- The asset row inserted by a non-duplicate `upload_asset` call. -/
def ingestedRow (hashFn : List Nat → String) (up : Upload) (s : SysState) :
    AssetRow :=
  { id := s.nextId, filename := up.filename, file_hash := hashFn up.content,
    file_size := up.content.length,
    mime_type := detect_mime_type up.content up.filename,
    storage_path := toString s.nextId ++ "/" ++ up.filename,
    upload_context := up.context, processing_status := "queued",
    processing_priority := up.priority, error_message := none,
    updated_at := s.now }

/-- The response of a non-duplicate `upload_asset` call. -/
def ingestedResp (hashFn : List Nat → String) (up : Upload) (s : SysState) :
    AssetResponse :=
  { id := s.nextId, filename := up.filename, file_hash := hashFn up.content,
    file_size := up.content.length,
    mime_type := detect_mime_type up.content up.filename,
    status := "queued",
    processing_eta := some (calculate_processing_eta up.content.length up.priority),
    duplicate := false }

/-- The state after a non-duplicate `upload_asset` call: blob written,
metadata inserted, message published, status cached — in program order. -/
def ingestedState (hashFn : List Nat → String) (up : Upload) (s : SysState) :
    SysState :=
  cache_asset_status
    (publish_processing_message
      (store_asset_metadata
        { s with nextId := s.nextId + 1,
                 blobs := s.blobs ++
                   [⟨"dataflux-assets", toString s.nextId ++ "/" ++ up.filename,
                     up.content, detect_mime_type up.content up.filename⟩] }
        s.nextId up.filename (hashFn up.content) up.content.length
        (detect_mime_type up.content up.filename)
        (toString s.nextId ++ "/" ++ up.filename) up.context up.priority
        up.collection_id)
      s.nextId (detect_mime_type up.content up.filename) up.priority)
    s.nextId "queued"

/-- The response `upload_asset` builds on the duplicate-found path from
the existing asset row. -/
def dupResp (r : AssetRow) : AssetResponse :=
  { id := r.id, filename := r.filename, file_hash := r.file_hash,
    file_size := r.file_size, mime_type := r.mime_type,
    status := r.processing_status, processing_eta := none,
    duplicate := true }

/-! ## Helper lemmas about the embedded operations -/

/-- An `UPDATE ... WHERE id` rewrite commutes with a `WHERE id` lookup when
the rewrite keeps the id column. -/
theorem find?_update_id (aid : Nat) (f : AssetRow → AssetRow)
    (hf : ∀ a, (f a).id = a.id) :
    ∀ l : List AssetRow,
      (l.map (fun a => if a.id = aid then f a else a)).find? (fun a => a.id = aid) =
        (l.find? (fun a => a.id = aid)).map f
  | [] => rfl
  | a :: l => by
    by_cases h : a.id = aid
    · simp [List.find?_cons, h, hf]
    · simp [List.find?_cons, h, find?_update_id aid f hf l]

/-- `lookupAsset` after `updateAssetRows` at the same id. -/
theorem lookupAsset_update (db : Db) (aid : Nat) (f : AssetRow → AssetRow)
    (hf : ∀ a, (f a).id = a.id) :
    lookupAsset (updateAssetRows db aid f) aid = (lookupAsset db aid).map f :=
  find?_update_id aid f hf db.assets

/-- `get_asset_data` after `updateAssetRows` at the same id. -/
theorem get_asset_data_update (db : Db) (aid : Nat) (f : AssetRow → AssetRow)
    (hf : ∀ a, (f a).id = a.id) :
    get_asset_data (updateAssetRows db aid f) aid = (get_asset_data db aid).map f := by
  unfold get_asset_data
  rw [show lookupAsset (updateAssetRows db aid f) aid = (lookupAsset db aid).map f from
    lookupAsset_update db aid f hf]
  cases lookupAsset db aid with
  | none => rfl
  | some a =>
    by_cases h : db.entities.any (fun e => e.id = aid) <;>
      simp [updateAssetRows, h]

/-- Row-insert traces contain no analyzer invocations. -/
theorem rowEvs_no_invoke (k : RowKind) :
    ∀ c n, (rowEvs k c n).filter Ev.isInvoke = []
  | 0, _ => rfl
  | c + 1, n => by
    simp [rowEvs, Ev.isInvoke, rowEvs_no_invoke k c (n + 1)]

/-- Inversion for the segments loop: a committed run writes exactly the
rows of `segRowsFrom` and the trace of `rowEvs`, consuming one fresh id
per row. -/
theorem storeSegs_ok (ef : Nat → Option String) (aid : Nat) :
    ∀ (l : List SegIn) (n : Nat) (rows : List SegRow) (evs : List Ev) (n1 : Nat),
      storeSegs ef aid l n = .ok (rows, evs, n1) →
      rows = segRowsFrom aid l n ∧ evs = rowEvs .segment l.length n ∧
        n1 = n + l.length
  | [], n, rows, evs, n1 => by
    intro h
    simp only [storeSegs, Except.ok.injEq, Prod.mk.injEq] at h
    obtain ⟨h1, h2, h3⟩ := h
    exact ⟨h1.symm, h2.symm, by simp [h3.symm]⟩
  | seg :: rest, n, rows, evs, n1 => by
    intro h
    unfold storeSegs at h
    cases hef : ef n with
    | some e => rw [hef] at h; exact absurd h (by simp)
    | none =>
      rw [hef] at h
      cases hrec : storeSegs ef aid rest (n + 1) with
      | error e => rw [hrec] at h; exact absurd h (by simp)
      | ok t =>
        obtain ⟨rows2, evs2, n2⟩ := t
        rw [hrec] at h
        simp only [Except.ok.injEq, Prod.mk.injEq] at h
        obtain ⟨h1, h2, h3⟩ := h
        obtain ⟨hr, he, hn⟩ := storeSegs_ok ef aid rest (n + 1) rows2 evs2 n2 hrec
        subst h1 h2 h3 hr he hn
        refine ⟨rfl, rfl, by simp; omega⟩

/-- Inversion for the features loop. -/
theorem storeFeats_ok (ef : Nat → Option String) :
    ∀ (l : List FeatIn) (n : Nat) (rows : List FeatRow) (evs : List Ev) (n1 : Nat),
      storeFeats ef l n = .ok (rows, evs, n1) →
      rows = featRowsFrom l n ∧ evs = rowEvs .feature l.length n ∧
        n1 = n + l.length
  | [], n, rows, evs, n1 => by
    intro h
    simp only [storeFeats, Except.ok.injEq, Prod.mk.injEq] at h
    obtain ⟨h1, h2, h3⟩ := h
    exact ⟨h1.symm, h2.symm, by simp [h3.symm]⟩
  | f :: rest, n, rows, evs, n1 => by
    intro h
    unfold storeFeats at h
    cases hef : ef n with
    | some e => rw [hef] at h; exact absurd h (by simp)
    | none =>
      rw [hef] at h
      cases hrec : storeFeats ef rest (n + 1) with
      | error e => rw [hrec] at h; exact absurd h (by simp)
      | ok t =>
        obtain ⟨rows2, evs2, n2⟩ := t
        rw [hrec] at h
        simp only [Except.ok.injEq, Prod.mk.injEq] at h
        obtain ⟨h1, h2, h3⟩ := h
        obtain ⟨hr, he, hn⟩ := storeFeats_ok ef rest (n + 1) rows2 evs2 n2 hrec
        subst h1 h2 h3 hr he hn
        refine ⟨rfl, rfl, by simp; omega⟩

/-- Inversion for the embeddings loop. -/
theorem storeEmbs_ok (ef : Nat → Option String) (aid : Nat) :
    ∀ (l : List EmbIn) (n : Nat) (rows : List EmbRow) (evs : List Ev) (n1 : Nat),
      storeEmbs ef aid l n = .ok (rows, evs, n1) →
      rows = embRowsFrom aid l n ∧ evs = rowEvs .embedding l.length n ∧
        n1 = n + l.length
  | [], n, rows, evs, n1 => by
    intro h
    simp only [storeEmbs, Except.ok.injEq, Prod.mk.injEq] at h
    obtain ⟨h1, h2, h3⟩ := h
    exact ⟨h1.symm, h2.symm, by simp [h3.symm]⟩
  | e :: rest, n, rows, evs, n1 => by
    intro h
    unfold storeEmbs at h
    cases hef : ef n with
    | some err => rw [hef] at h; exact absurd h (by simp)
    | none =>
      rw [hef] at h
      cases hrec : storeEmbs ef aid rest (n + 1) with
      | error err => rw [hrec] at h; exact absurd h (by simp)
      | ok t =>
        obtain ⟨rows2, evs2, n2⟩ := t
        rw [hrec] at h
        simp only [Except.ok.injEq, Prod.mk.injEq] at h
        obtain ⟨h1, h2, h3⟩ := h
        obtain ⟨hr, he, hn⟩ := storeEmbs_ok ef aid rest (n + 1) rows2 evs2 n2 hrec
        subst h1 h2 h3 hr he hn
        refine ⟨rfl, rfl, by simp; omega⟩

/-- Inversion for the whole transaction: a commit appends exactly the
segment rows, then the feature rows, then the embedding rows, touches no
other component of the state, and its trace is the three insert blocks in
that order. -/
theorem store_ok (ef : Nat → Option String) (aid : Nat) (r : AnalysisResult)
    (s s2 : SysState) (evs : List Ev)
    (h : store_analysis_results ef aid r s = .ok (s2, evs)) :
    s2 = { s with
            db := { s.db with
              segments := s.db.segments ++ segRowsFrom aid r.segments s.nextId,
              features := s.db.features ++
                featRowsFrom r.features (s.nextId + r.segments.length),
              embeddings := s.db.embeddings ++
                embRowsFrom aid r.embeddings
                  (s.nextId + r.segments.length + r.features.length) },
            nextId := s.nextId + r.segments.length + r.features.length +
              r.embeddings.length } ∧
    evs = rowEvs .segment r.segments.length s.nextId ++
          rowEvs .feature r.features.length (s.nextId + r.segments.length) ++
          rowEvs .embedding r.embeddings.length
            (s.nextId + r.segments.length + r.features.length) := by
  unfold store_analysis_results at h
  cases h1 : storeSegs ef aid r.segments s.nextId with
  | error e => rw [h1] at h; exact absurd h (by simp)
  | ok t1 =>
    obtain ⟨segRows, ev1, n1⟩ := t1
    rw [h1] at h
    dsimp only at h
    obtain ⟨hr1, he1, hn1⟩ := storeSegs_ok ef aid r.segments s.nextId segRows ev1 n1 h1
    cases h2 : storeFeats ef r.features n1 with
    | error e => rw [h2] at h; exact absurd h (by simp)
    | ok t2 =>
      obtain ⟨featRows, ev2, n2⟩ := t2
      rw [h2] at h
      dsimp only at h
      obtain ⟨hr2, he2, hn2⟩ := storeFeats_ok ef r.features n1 featRows ev2 n2 h2
      cases h3 : storeEmbs ef aid r.embeddings n2 with
      | error e => rw [h3] at h; exact absurd h (by simp)
      | ok t3 =>
        obtain ⟨embRows, ev3, n3⟩ := t3
        rw [h3] at h
        dsimp only at h
        obtain ⟨hr3, he3, hn3⟩ := storeEmbs_ok ef aid r.embeddings n2 embRows ev3 n3 h3
        simp only [Except.ok.injEq, Prod.mk.injEq] at h
        obtain ⟨hs, hev⟩ := h
        subst hr1 he1 hn1 hr2 he2 hn2 hr3 he3 hn3
        constructor
        · rw [← hs]
        · rw [← hev]

/-- `_get_analyzer_type` only ever returns a registered analyzer key. -/
theorem get_analyzer_type_registered (mt : String) :
    analyzer_keys.contains (get_analyzer_type mt) = true := by
  unfold get_analyzer_type analyzer_keys
  by_cases h1 : startsWithStr mt "video/" <;>
    by_cases h2 : startsWithStr mt "image/" <;>
      by_cases h3 : startsWithStr mt "audio/" <;>
        by_cases h4 : (startsWithStr mt "application/pdf" || startsWithStr mt "text/") = true <;>
          simp [h1, h2, h3, h4]

/-- The feature rows of a commit keep the analyzer-supplied `segment_id`
column values verbatim. -/
theorem featRowsFrom_segment_id :
    ∀ (l : List FeatIn) (n : Nat),
      (featRowsFrom l n).map (fun fr => fr.segment_id) =
        l.map (fun f => f.segment_id)
  | [], _ => rfl
  | f :: rest, n => by
    simp [featRowsFrom, mkFeatRow, featRowsFrom_segment_id rest (n + 1)]

/-! ## The claims -/

/-- **C10** (confirmed): the media type of an upload is computed solely
from the filename extension — the file bytes never influence it — and any
upload whose lower-cased extension is missing from the fixed extension
map gets `application/octet-stream`, which `_get_analyzer_type` routes to
the registered Document analyzer fallback. -/
theorem mime_from_extension_only (c c2 : List Nat) (fn : String)
    (h : mime_map.find? (fun p => p.1 = lowerStr (pySuffix fn)) = none) :
    detect_mime_type c fn = detect_mime_type c2 fn ∧
    detect_mime_type c fn = "application/octet-stream" ∧
    get_analyzer_type (detect_mime_type c fn) = "document" ∧
    analyzer_keys.contains "document" = true := by
  have h2 : detect_mime_type c fn = "application/octet-stream" := by
    unfold detect_mime_type
    rw [h]
    rfl
  refine ⟨rfl, h2, ?_, rfl⟩
  rw [h2]
  rfl

/-- Witness for `mime_from_extension_only`: the unknown extension `.xyz`
with two different byte contents. -/
theorem mime_from_extension_only_witness :
    mime_map.find? (fun p => p.1 = lowerStr (pySuffix "movie.xyz")) = none ∧
    detect_mime_type [1, 2, 3] "movie.xyz" = "application/octet-stream" :=
  ⟨by decide, (mime_from_extension_only [1, 2, 3] [9] "movie.xyz" (by decide)).2.1⟩

/-- **C1** (counterexample): asset 1 is already `processing` and the work
message is a plain (non-forced) delivery, yet `_process_asset` is not a
no-op: it invokes the document analyzer and changes the asset's state (to
`completed` here). There is no queued→processing guard in the handler. -/
theorem processing_message_not_noop :
    assetStatus (exState "processing").db 1 = some "processing" ∧
    (process_asset exEnv exMsg (exState "processing")).2.filter Ev.isInvoke =
      [.analyzerInvoke 1 "document"] ∧
    assetStatus (process_asset exEnv exMsg (exState "processing")).1.db 1 =
      some "completed" := by
  refine ⟨rfl, ?_, ?_⟩ <;> rfl

/-- **C5** (counterexample): a redelivered message for an asset already in
`completed` makes the dispatcher write the transition
`completed → processing`, which the spec's transition relation forbids
(it is not a re-analysis, and even re-analysis only targets `queued`). -/
theorem completed_to_processing_transition :
    assetStatus (exState "completed").db 1 = some "completed" ∧
    (process_asset exEnv exMsg (exState "completed")).2.take 1 =
      [.statusWrite 1 "processing" none] ∧
    specAllowedTransition "completed" "processing" false = false := by
  refine ⟨rfl, ?_, ?_⟩ <;> rfl

/-- **C3** (counterexample): the document analyzer fails internally
(`validate_file` is false) and reports it through
`create_error_result` — its result metadata says `status = "failed"` —
but the dispatcher never inspects that marker: it stores the empty result
and marks the asset `completed` with `last_error` cleared. An
analyzer-level failure thus ends in `completed` with an empty
`last_error`, not in `failed`. -/
theorem analyzer_failure_marked_completed :
    metaLookup "status" (exEnvBadFile.analyzeResult "document").metadata =
      some (.s "failed") ∧
    metaLookup "error" (exEnvBadFile.analyzeResult "document").metadata =
      some (.s "Invalid file") ∧
    assetStatus (process_asset exEnvBadFile exMsg (exState "queued")).1.db 1 =
      some "completed" ∧
    assetError (process_asset exEnvBadFile exMsg (exState "queued")).1.db 1 =
      some none := by
  refine ⟨rfl, rfl, ?_, ?_⟩ <;> rfl

/-- **C6** (counterexample): the dispatcher's `completed` transition
updates only the durable store; the cache entry written at upload time
(`queued`, 1-hour TTL) is neither invalidated nor refreshed, so an
immediate status read returns the stale `queued` while the durable store
says `completed`. -/
theorem stale_cache_after_transition :
    (process_asset exEnv exMsg exStateCached).1.cache = exStateCached.cache ∧
    assetStatus (process_asset exEnv exMsg exStateCached).1.db 1 =
      some "completed" ∧
    get_processing_status (process_asset exEnv exMsg exStateCached).1 1 =
      .ok ⟨1, "queued"⟩ := by
  refine ⟨rfl, ?_, ?_⟩ <;> rfl

/-- **C7** (counterexample): an audio run where exactly one of the three
sub-probes raises. The analyzer does keep the other two contributions and
does not abort — but it records no `errors` list at all in the result
metadata (`metadata.errors` is absent, not a length-1 list); the failure
is only logged. -/
theorem no_errors_list_in_metadata :
    (audio_analyze exAudioOneFailure).features =
      exProbeA.features ++ exProbeB.features ∧
    metaLookup "errors" (audio_analyze exAudioOneFailure).metadata = none ∧
    metaLookup "status" (audio_analyze exAudioOneFailure).metadata =
      some (.s "success") := by
  refine ⟨?_, rfl, rfl⟩
  rfl

/-- **C9** (counterexample): persisting, for asset 1, a result with *no*
segments and one feature whose analyzer-supplied `segment_id` is 7
succeeds verbatim; the stored feature references segment 7, which was not
created in this transaction (none were) and belongs to asset 2, not
asset 1. The features INSERT carries no asset column and no remapping of
segment references. -/
theorem feature_segment_ref_unchecked :
    (store_analysis_results (fun _ => none) 1 exResultDangling exStateSeg).map
        (fun p => p.1.db.features.map (fun fr => fr.segment_id)) =
      .ok [some 7] ∧
    exResultDangling.segments = [] ∧
    (exStateSeg.db.segments.find? (fun sr => sr.id = 7)).map
        (fun sr => sr.asset_id) = some 2 := by
  refine ⟨?_, rfl, rfl⟩
  rfl

/-- `_process_asset` reads its environment only through `downloadFail`,
`analyzeResult` and `execFail`; in particular the duration of the awaited
invocation is never consulted (there is no `asyncio.wait_for` in the
Python source). -/
theorem process_asset_env_ext (e1 e2 : DispatchEnv) (msg : Msg) (s : SysState)
    (h1 : e1.downloadFail = e2.downloadFail)
    (h2 : e1.analyzeResult = e2.analyzeResult)
    (h3 : e1.execFail = e2.execFail) :
    process_asset e1 msg s = process_asset e2 msg s := by
  obtain ⟨d1, a1, x1, t1⟩ := e1
  obtain ⟨d2, a2, x2, t2⟩ := e2
  have hd : d1 = d2 := h1
  have ha : a1 = a2 := h2
  have hx : x1 = x2 := h3
  subst hd; subst ha; subst hx
  rfl

/-- `_process_asset` writes only to the relational store: the cache, the
queue and the blob store come out unchanged in every branch. -/
theorem process_asset_db_only (env : DispatchEnv) (msg : Msg) (s : SysState) :
    (process_asset env msg s).1.cache = s.cache ∧
    (process_asset env msg s).1.queue = s.queue ∧
    (process_asset env msg s).1.blobs = s.blobs := by
  unfold process_asset
  cases msg.asset_id with
  | none => exact ⟨rfl, rfl, rfl⟩
  | some aid =>
    dsimp only [update_processing_status]
    cases msg.mime_type with
    | none => exact ⟨rfl, rfl, rfl⟩
    | some mt =>
      dsimp only
      by_cases hak : analyzer_keys.contains (get_analyzer_type mt) = false
      · rw [if_pos hak]; exact ⟨rfl, rfl, rfl⟩
      · rw [if_neg hak]
        cases get_asset_data (updateAssetRows s.db aid fun a =>
            { a with processing_status := "processing", updated_at := s.now,
                     error_message := none }) aid with
        | none => exact ⟨rfl, rfl, rfl⟩
        | some asset =>
          cases env.downloadFail with
          | some e => exact ⟨rfl, rfl, rfl⟩
          | none =>
            dsimp only
            cases hst : store_analysis_results env.execFail aid
                (env.analyzeResult (get_analyzer_type mt))
                { s with db := updateAssetRows s.db aid fun a =>
                    { a with processing_status := "processing",
                             updated_at := s.now, error_message := none } } with
            | error err => exact ⟨rfl, rfl, rfl⟩
            | ok t =>
              obtain ⟨s2, evs⟩ := t
              obtain ⟨hs2, -⟩ := store_ok _ _ _ _ _ _ hst
              subst hs2
              exact ⟨rfl, rfl, rfl⟩

/-- **C8** (counterexample): no deadline bounds the analyzer invocation:
for every candidate deadline `D` there is a run whose invocation takes
`D + 1` time units and still ends `completed`, not `failed`.
(`analyzeDuration` models the wall-clock duration of the awaited
`analyzer.analyze` call; the handler never consults it.) -/
theorem no_deadline_enforced :
    ¬ ∃ D : Nat, ∀ (env : DispatchEnv) (msg : Msg) (s : SysState) (aid : Nat),
        msg.asset_id = some aid →
        (process_asset env msg s).2.filter Ev.isInvoke ≠ [] →
        env.analyzeDuration > D →
        assetStatus (process_asset env msg s).1.db aid = some "failed" := by
  rintro ⟨D, h⟩
  have hrw : process_asset { exEnv with analyzeDuration := D + 1 } exMsg
      (exState "queued") = process_asset exEnv exMsg (exState "queued") :=
    process_asset_env_ext _ _ _ _ rfl rfl rfl
  have hc := h { exEnv with analyzeDuration := D + 1 } exMsg (exState "queued") 1
    rfl (by rw [hrw]; decide) (Nat.lt_succ_self D)
  rw [hrw] at hc
  have hcompleted :
      assetStatus (process_asset exEnv exMsg (exState "queued")).1.db 1 =
        some "completed" := rfl
  exact absurd (hcompleted.symm.trans hc) (by decide)

/-- **C8** (amended): the dispatcher enforces no deadline at all: the
entire outcome of handling a message — final state and event trace — is
independent of how long the awaited analyzer invocation takes. Failures
arise only from message shape, missing assets, download errors or storage
errors, never from elapsed time. -/
theorem outcome_independent_of_duration (env : DispatchEnv) (d : Nat)
    (msg : Msg) (s : SysState) :
    process_asset { env with analyzeDuration := d } msg s =
      process_asset env msg s :=
  process_asset_env_ext _ _ _ _ rfl rfl rfl

/-- **C9** (amended): the Result Aggregator stores each feature's
analyzer-supplied `segment_id` verbatim: it neither remaps it to the
fresh ids generated for the segments of the same transaction nor
validates it against them (and the feature row carries no asset
reference at all, cf. `FeatRow`). -/
theorem feature_segment_id_verbatim (ef : Nat → Option String) (aid : Nat)
    (r : AnalysisResult) (s s2 : SysState) (evs : List Ev)
    (h : store_analysis_results ef aid r s = .ok (s2, evs)) :
    s2.db.features.map (fun fr => fr.segment_id) =
      s.db.features.map (fun fr => fr.segment_id) ++
        r.features.map (fun f => f.segment_id) := by
  obtain ⟨hs, -⟩ := store_ok ef aid r s s2 evs h
  subst hs
  simp [featRowsFrom_segment_id]

/-- Witness for `feature_segment_id_verbatim`: the dangling-reference
commit on `exStateSeg`. -/
theorem feature_segment_id_verbatim_witness :
    exStoreOut.db.features.map (fun fr => fr.segment_id) =
      exStateSeg.db.features.map (fun fr => fr.segment_id) ++
        exResultDangling.features.map (fun f => f.segment_id) :=
  feature_segment_id_verbatim (fun _ => none) 1 exResultDangling exStateSeg
    exStoreOut [.rowInsert .feature 10] rfl

/-- **C7** (amended): a single failing sub-probe never aborts the audio
analyzer: whichever of the three probes raises, the result combines the
two surviving contributions in task order and is marked a success — but
no `errors` list is recorded anywhere in the result metadata (the
failure reason is only logged). -/
theorem subprobe_isolation_no_error_list (a b : ProbeOut) (e : String)
    (info : List (String × MetaVal)) :
    audio_analyze (audioFailFst a b e info) = audioTwoProbeResult a b info ∧
    audio_analyze (audioFailSnd a b e info) = audioTwoProbeResult a b info ∧
    audio_analyze (audioFailThd a b e info) = audioTwoProbeResult a b info ∧
    metaLookup "errors" (audio_analyze (audioFailSnd a b e info)).metadata =
      none := by
  refine ⟨?_, ?_, ?_, rfl⟩ <;>
    simp [audio_analyze, audioFailFst, audioFailSnd, audioFailThd,
      audioTwoProbeResult, create_success_result, gatherSegments,
      gatherFeatures, gatherEmbeddings]

/-- **C6** (amended): the dispatcher's transitions update only the durable
store — the cache is never invalidated or refreshed by `_process_asset`
(nor are the queue or blob store touched), and the PUT status endpoint
never reaches its cache refresh either (it crashes on `await get_redis()`
right after its DB write), so the only cache write in the system happens
at upload time. A cache entry written then stays visible until its TTL
expires whatever transitions follow; once expired or absent, status
reads fall through to the durable store. -/
theorem dispatcher_never_touches_cache (env : DispatchEnv) (msg : Msg)
    (s : SysState) :
    (process_asset env msg s).1.cache = s.cache ∧
    (process_asset env msg s).1.queue = s.queue ∧
    (process_asset env msg s).1.blobs = s.blobs ∧
    (∀ (aid : Nat) (a : AssetRow),
      cacheGet s.cache s.now aid = none → lookupAsset s.db aid = some a →
      get_processing_status s aid = .ok ⟨aid, a.processing_status⟩) ∧
    (∀ (s2 : SysState) (aid : Nat) (u : Option String),
      (update_asset_status s2 aid u).2.cache = s2.cache) := by
  obtain ⟨h1, h2, h3⟩ := process_asset_db_only env msg s
  refine ⟨h1, h2, h3, ?_, ?_⟩
  · intro aid a hmiss hlook
    unfold get_processing_status
    rw [hmiss, hlook]
  · intro s2 aid u
    cases u with
    | none => rfl
    | some st =>
      unfold update_asset_status
      dsimp only
      by_cases h : st = ""
      · rw [if_pos h]
      · rw [if_neg h]

/-- Witness for `dispatcher_never_touches_cache`: the cached one-asset
state, whose cache misses on key 2 while the durable store does hold
asset 1. -/
theorem dispatcher_never_touches_cache_witness :
    (process_asset exEnv exMsg exStateCached).1.cache = exStateCached.cache ∧
    get_processing_status { exStateCached with cache := [] } 1 =
      .ok ⟨1, "queued"⟩ ∧
    (update_asset_status exStateCached 1 (some "failed")).2.cache =
      exStateCached.cache :=
  ⟨(dispatcher_never_touches_cache exEnv exMsg exStateCached).1,
   (dispatcher_never_touches_cache exEnv exMsg
      { exStateCached with cache := [] }).2.2.2.1 1 (exAsset "queued") rfl rfl,
   (dispatcher_never_touches_cache exEnv exMsg exStateCached).2.2.2.2
      exStateCached 1 (some "failed")⟩

/-- A successful `_get_asset_data` means the asset row itself was found. -/
theorem get_asset_data_lookup (db : Db) (aid : Nat) (a : AssetRow)
    (h : get_asset_data db aid = some a) : lookupAsset db aid = some a := by
  unfold get_asset_data at h
  cases hl : lookupAsset db aid with
  | none => rw [hl] at h; exact absurd h (by simp)
  | some b =>
    rw [hl] at h
    dsimp only at h
    by_cases he : db.entities.any (fun e => e.id = aid)
    · rw [if_pos he] at h
      exact h
    · rw [if_neg he] at h; exact absurd h (by simp)
/-- `lookupAsset` only reads the `assets` table. -/
theorem lookupAsset_congr (db1 db2 : Db) (aid : Nat)
    (h : db1.assets = db2.assets) : lookupAsset db1 aid = lookupAsset db2 aid := by
  unfold lookupAsset
  rw [h]

/-- Whatever else happens, the first thing the handler does with a keyed
message is write `processing`. -/
theorem process_asset_first_write (env : DispatchEnv) (msg : Msg) (s : SysState)
    (aid : Nat) (hid : msg.asset_id = some aid) :
    (process_asset env msg s).2.take 1 =
      [.statusWrite aid "processing" none] := by
  unfold process_asset
  rw [hid]
  dsimp only [update_processing_status]
  repeat' split
  all_goals rfl

/-- The 409 guard of the re-analysis endpoint. -/
theorem reanalysis_conflict (s : SysState) (aid : Nat) (a : AssetRow) (p : Nat)
    (hl : lookupAsset s.db aid = some a)
    (hp : a.processing_status = "processing") :
    trigger_reanalysis s aid false p =
      (.err 409 "Asset is already being processed", s) := by
  unfold trigger_reanalysis
  rw [hl]
  dsimp only
  rw [if_pos ⟨rfl, hp⟩]

/-- Good-path unfolding of `_process_asset` when the download raises:
both status writes happen and nothing else. -/
theorem process_asset_download_fail (env : DispatchEnv) (msg : Msg)
    (s : SysState) (aid : Nat) (mt : String) (a : AssetRow) (e : String)
    (hid : msg.asset_id = some aid) (hmt : msg.mime_type = some mt)
    (ha : get_asset_data s.db aid = some a)
    (hdl : env.downloadFail = some e) :
    process_asset env msg s =
      ((update_processing_status
          (update_processing_status s aid "processing" none).1 aid "failed"
          (some e)).1,
       [.statusWrite aid "processing" none,
        .statusWrite aid "failed" (some e)]) := by
  have hfa : get_asset_data (updateAssetRows s.db aid fun a0 =>
      { a0 with processing_status := "processing", updated_at := s.now,
                error_message := none }) aid = some (procStatusRow s.now a) := by
    rw [get_asset_data_update s.db aid (fun a0 => { a0 with processing_status := "processing", updated_at := s.now, error_message := none }) (fun _ => rfl), ha]
    rfl
  unfold process_asset
  rw [hid, hmt]
  dsimp only [update_processing_status]
  rw [if_neg (by simpa using get_analyzer_type_registered mt)]
  rw [hfa]
  rw [hdl]
  rfl

/-- Good-path unfolding of `_process_asset` when the download succeeds:
the analyzer is invoked once, and the run ends according to the storage
outcome — `completed` (with the cleanup after the status write) on
commit, `failed` with the storage exception on rollback. -/
theorem process_asset_good_path (env : DispatchEnv) (msg : Msg) (s : SysState)
    (aid : Nat) (mt : String) (a : AssetRow)
    (hid : msg.asset_id = some aid) (hmt : msg.mime_type = some mt)
    (ha : get_asset_data s.db aid = some a)
    (hdl : env.downloadFail = none) :
    (∀ (s2 : SysState) (evs : List Ev),
      store_analysis_results env.execFail aid
          (env.analyzeResult (get_analyzer_type mt))
          (update_processing_status s aid "processing" none).1 = .ok (s2, evs) →
      process_asset env msg s =
        ((update_processing_status s2 aid "completed" none).1,
         [.statusWrite aid "processing" none] ++
           [.analyzerInvoke aid (get_analyzer_type mt)] ++ evs ++
             [.statusWrite aid "completed" none] ++
               [.tempRemove (tempPath (procStatusRow s.now a))])) ∧
    (∀ err : String,
      store_analysis_results env.execFail aid
          (env.analyzeResult (get_analyzer_type mt))
          (update_processing_status s aid "processing" none).1 = .error err →
      process_asset env msg s =
        ((update_processing_status
            (update_processing_status s aid "processing" none).1 aid "failed"
            (some err)).1,
         [.statusWrite aid "processing" none,
          .analyzerInvoke aid (get_analyzer_type mt),
          .tempRemove (tempPath (procStatusRow s.now a)),
          .statusWrite aid "failed" (some err)])) := by
  have hfa : get_asset_data (updateAssetRows s.db aid fun a0 =>
      { a0 with processing_status := "processing", updated_at := s.now,
                error_message := none }) aid = some (procStatusRow s.now a) := by
    rw [get_asset_data_update s.db aid (fun a0 => { a0 with processing_status := "processing", updated_at := s.now, error_message := none }) (fun _ => rfl), ha]
    rfl
  constructor
  · intro s2 evs hst
    unfold process_asset
    rw [hid, hmt]
    dsimp only [update_processing_status]
    rw [if_neg (by simpa using get_analyzer_type_registered mt)]
    rw [hfa]
    rw [hdl]
    dsimp only
    rw [show store_analysis_results env.execFail aid
        (env.analyzeResult (get_analyzer_type mt))
        { s with db := updateAssetRows s.db aid fun a0 =>
            { a0 with processing_status := "processing", updated_at := s.now,
                      error_message := none } } = .ok (s2, evs) from hst]
  · intro err hst
    unfold process_asset
    rw [hid, hmt]
    dsimp only [update_processing_status]
    rw [if_neg (by simpa using get_analyzer_type_registered mt)]
    rw [hfa]
    rw [hdl]
    dsimp only
    rw [show store_analysis_results env.execFail aid
        (env.analyzeResult (get_analyzer_type mt))
        { s with db := updateAssetRows s.db aid fun a0 =>
            { a0 with processing_status := "processing", updated_at := s.now,
                      error_message := none } } = .error err from hst]
    rfl

/-- After one `_update_processing_status` write, the looked-up row shows
exactly the written status and error. -/
theorem status_error_after_update (s : SysState) (aid : Nat) (b : AssetRow)
    (hlook : lookupAsset s.db aid = some b) (st : String) (e : Option String) :
    assetStatus ((update_processing_status s aid st e).1).db aid = some st ∧
    assetError ((update_processing_status s aid st e).1).db aid = some e := by
  constructor
  · show (lookupAsset (updateAssetRows s.db aid (fun a0 => { a0 with processing_status := st, updated_at := s.now, error_message := e })) aid).map (fun a => a.processing_status) = some st
    rw [lookupAsset_update s.db aid (fun a0 => { a0 with processing_status := st, updated_at := s.now, error_message := e }) (fun _ => rfl), hlook]
    rfl
  · show (lookupAsset (updateAssetRows s.db aid (fun a0 => { a0 with processing_status := st, updated_at := s.now, error_message := e })) aid).map (fun a => a.error_message) = some e
    rw [lookupAsset_update s.db aid (fun a0 => { a0 with processing_status := st, updated_at := s.now, error_message := e }) (fun _ => rfl), hlook]
    rfl

/-- After the dispatcher's initial `processing` write, the row is found
as its `procStatusRow` rewrite. -/
theorem lookup_after_processing_write (s : SysState) (aid : Nat) (a : AssetRow)
    (hlook : lookupAsset s.db aid = some a) :
    lookupAsset ((update_processing_status s aid "processing" none).1).db aid =
      some (procStatusRow s.now a) := by
  show (lookupAsset (updateAssetRows s.db aid (fun a0 => { a0 with processing_status := "processing", updated_at := s.now, error_message := none })) aid) = some (procStatusRow s.now a)
  rw [lookupAsset_update s.db aid (fun a0 => { a0 with processing_status := "processing", updated_at := s.now, error_message := none }) (fun _ => rfl), hlook]
  rfl

/-- **C1** (amended): the dispatcher's message handler has no status
guard: for every message carrying an asset id it first writes
`processing` (clearing `last_error`) whatever the current status, and
whenever the asset row exists and the download succeeds it invokes the
resolved analyzer exactly once — also on a duplicate delivery for an
asset already `processing`. The only already-processing guard in the
system is the 409 conflict of the re-analysis endpoint. -/
theorem dispatcher_unguarded (env : DispatchEnv) (msg : Msg) (s : SysState)
    (aid : Nat) (mt : String) (a : AssetRow)
    (hid : msg.asset_id = some aid) (hmt : msg.mime_type = some mt)
    (ha : get_asset_data s.db aid = some a) (hdl : env.downloadFail = none) :
    (process_asset env msg s).2.take 1 = [.statusWrite aid "processing" none] ∧
    (process_asset env msg s).2.filter Ev.isInvoke =
      [.analyzerInvoke aid (get_analyzer_type mt)] ∧
    (∀ (s3 : SysState) (a3 : AssetRow) (p : Nat),
      lookupAsset s3.db aid = some a3 → a3.processing_status = "processing" →
      trigger_reanalysis s3 aid false p =
        (.err 409 "Asset is already being processed", s3)) := by
  refine ⟨process_asset_first_write env msg s aid hid, ?_, ?_⟩
  · obtain ⟨hok, herr⟩ := process_asset_good_path env msg s aid mt a hid hmt ha hdl
    cases hst : store_analysis_results env.execFail aid
        (env.analyzeResult (get_analyzer_type mt))
        (update_processing_status s aid "processing" none).1 with
    | ok t =>
      obtain ⟨s2, evs⟩ := t
      rw [hok s2 evs hst]
      obtain ⟨-, hev⟩ := store_ok _ _ _ _ _ _ hst
      subst hev
      simp [List.filter_append, rowEvs_no_invoke, Ev.isInvoke]
    | error err =>
      rw [herr err hst]
      rfl
  · intro s3 a3 p h1 h2
    exact reanalysis_conflict s3 aid a3 p h1 h2

/-- Witness for `dispatcher_unguarded`: the already-`processing` asset 1
with a plain redelivered message. -/
theorem dispatcher_unguarded_witness :
    (process_asset exEnv exMsg (exState "processing")).2.take 1 =
      [.statusWrite 1 "processing" none] ∧
    (process_asset exEnv exMsg (exState "processing")).2.filter Ev.isInvoke =
      [.analyzerInvoke 1 (get_analyzer_type "text/plain")] ∧
    trigger_reanalysis (exState "processing") 1 false 5 =
      (.err 409 "Asset is already being processed", exState "processing") := by
  obtain ⟨h1, h2, h3⟩ := dispatcher_unguarded exEnv exMsg (exState "processing")
    1 "text/plain" (exAsset "processing") rfl rfl rfl rfl
  exact ⟨h1, h2, h3 (exState "processing") (exAsset "processing") 5 rfl rfl⟩

/-- Unfolding of `_process_asset` when the asset row exists but its
entity row is missing: the JOIN in `_get_asset_data` returns no row, so
the handler writes `failed` with "Asset not found" and returns. -/
theorem process_asset_entity_missing (env : DispatchEnv) (msg : Msg)
    (s : SysState) (aid : Nat) (mt : String)
    (hid : msg.asset_id = some aid) (hmt : msg.mime_type = some mt)
    (hent : s.db.entities.any (fun en => en.id = aid) = false) :
    process_asset env msg s =
      ((update_processing_status
          (update_processing_status s aid "processing" none).1 aid "failed"
          (some "Asset not found")).1,
       [.statusWrite aid "processing" none,
        .statusWrite aid "failed" (some "Asset not found")]) := by
  have hga : get_asset_data (updateAssetRows s.db aid fun a0 =>
      { a0 with processing_status := "processing", updated_at := s.now,
                error_message := none }) aid = none := by
    unfold get_asset_data
    cases lookupAsset (updateAssetRows s.db aid fun a0 => { a0 with processing_status := "processing", updated_at := s.now, error_message := none }) aid with
    | none => rfl
    | some b =>
      dsimp only
      rw [show (updateAssetRows s.db aid fun a0 => { a0 with processing_status := "processing", updated_at := s.now, error_message := none }).entities = s.db.entities from rfl]
      rw [hent]
      rfl
  unfold process_asset
  rw [hid, hmt]
  dsimp only [update_processing_status]
  rw [if_neg (by simpa using get_analyzer_type_registered mt)]
  rw [hga]
  rfl

/-- Unfolding of `_process_asset` on a message without a media type: the
`processing` write happens, then `_get_analyzer_type(None)` raises
`AttributeError` and the except handler itself raises `UnboundLocalError`
on the unbound `analyzer_type` metrics label before the failed UPDATE —
the asset is left in `processing`. -/
theorem process_asset_missing_mime (env : DispatchEnv) (msg : Msg)
    (s : SysState) (aid : Nat)
    (hid : msg.asset_id = some aid) (hmt : msg.mime_type = none) :
    process_asset env msg s =
      ((update_processing_status s aid "processing" none).1,
       [.statusWrite aid "processing" none,
        .handlerCrash "UnboundLocalError: analyzer_type"]) := by
  unfold process_asset
  rw [hid, hmt]
  rfl

/-- **C3** (amended): failure surfacing is partial. Once the analyzer type
is resolved, exceptions reaching the handler are surfaced: a download or
storage failure ends the asset `failed` with `last_error` the exception
text (possibly empty if the exception carried no message), and a found
asset row whose entity row is missing ends `failed` with
"Asset not found". But two silent failure modes remain: a successful
storage commit marks the asset `completed` with `last_error` cleared
whatever the analyzer reported — analyzer-internal failures returned via
`create_error_result` are stored and completed silently — and a message
without a media type leaves the asset stuck in `processing` with
`last_error` cleared, because the except block itself crashes (the
metrics call reads the unbound `analyzer_type`) before the failed
write. -/
theorem dispatcher_failure_surfacing (env : DispatchEnv) (msg : Msg)
    (s : SysState) (aid : Nat) (a : AssetRow)
    (hid : msg.asset_id = some aid)
    (hlook : lookupAsset s.db aid = some a) :
    (∀ (mt e : String), msg.mime_type = some mt →
      get_asset_data s.db aid = some a → env.downloadFail = some e →
      assetStatus (process_asset env msg s).1.db aid = some "failed" ∧
      assetError (process_asset env msg s).1.db aid = some (some e)) ∧
    (∀ (mt err : String), msg.mime_type = some mt →
      get_asset_data s.db aid = some a → env.downloadFail = none →
      store_analysis_results env.execFail aid
          (env.analyzeResult (get_analyzer_type mt))
          (update_processing_status s aid "processing" none).1 = .error err →
      assetStatus (process_asset env msg s).1.db aid = some "failed" ∧
      assetError (process_asset env msg s).1.db aid = some (some err)) ∧
    (∀ (mt : String) (s2 : SysState) (evs : List Ev), msg.mime_type = some mt →
      get_asset_data s.db aid = some a → env.downloadFail = none →
      store_analysis_results env.execFail aid
          (env.analyzeResult (get_analyzer_type mt))
          (update_processing_status s aid "processing" none).1 = .ok (s2, evs) →
      assetStatus (process_asset env msg s).1.db aid = some "completed" ∧
      assetError (process_asset env msg s).1.db aid = some none) ∧
    (∀ mt : String, msg.mime_type = some mt →
      s.db.entities.any (fun en => en.id = aid) = false →
      assetStatus (process_asset env msg s).1.db aid = some "failed" ∧
      assetError (process_asset env msg s).1.db aid =
        some (some "Asset not found")) ∧
    (msg.mime_type = none →
      assetStatus (process_asset env msg s).1.db aid = some "processing" ∧
      assetError (process_asset env msg s).1.db aid = some none) := by
  have hl1 := lookup_after_processing_write s aid a hlook
  refine ⟨?_, ?_, ?_, ?_, ?_⟩
  · intro mt e hmt ha hdl
    rw [process_asset_download_fail env msg s aid mt a e hid hmt ha hdl]
    exact status_error_after_update _ aid (procStatusRow s.now a) hl1 "failed" (some e)
  · intro mt err hmt ha hdl hst
    obtain ⟨-, herr⟩ := process_asset_good_path env msg s aid mt a hid hmt ha hdl
    rw [herr err hst]
    exact status_error_after_update _ aid (procStatusRow s.now a) hl1 "failed" (some err)
  · intro mt s2 evs hmt ha hdl hst
    obtain ⟨hok, -⟩ := process_asset_good_path env msg s aid mt a hid hmt ha hdl
    rw [hok s2 evs hst]
    obtain ⟨hs2, -⟩ := store_ok _ _ _ _ _ _ hst
    have hl2 : lookupAsset s2.db aid = some (procStatusRow s.now a) := by
      subst hs2
      exact hl1
    exact status_error_after_update s2 aid (procStatusRow s.now a) hl2 "completed" none
  · intro mt hmt hent
    rw [process_asset_entity_missing env msg s aid mt hid hmt hent]
    exact status_error_after_update _ aid (procStatusRow s.now a) hl1 "failed"
      (some "Asset not found")
  · intro hmt
    rw [process_asset_missing_mime env msg s aid hid hmt]
    constructor
    · show (lookupAsset ((update_processing_status s aid "processing" none).1).db aid).map (fun a => a.processing_status) = some "processing"
      rw [hl1]
      rfl
    · show (lookupAsset ((update_processing_status s aid "processing" none).1).db aid).map (fun a => a.error_message) = some none
      rw [hl1]
      rfl

/-- Witness for `dispatcher_failure_surfacing`: a failing download run, a
successful run, and a missing-media-type run on the one-asset state. -/
theorem dispatcher_failure_surfacing_witness :
    (assetStatus (process_asset exEnvDownFail exMsg (exState "queued")).1.db 1 =
        some "failed" ∧
      assetError (process_asset exEnvDownFail exMsg (exState "queued")).1.db 1 =
        some (some "S3Error: connection refused")) ∧
    (assetStatus (process_asset exEnv exMsg (exState "queued")).1.db 1 =
        some "completed" ∧
      assetError (process_asset exEnv exMsg (exState "queued")).1.db 1 =
        some none) ∧
    (assetStatus (process_asset exEnv exMsgNoMime (exState "queued")).1.db 1 =
        some "processing" ∧
      assetError (process_asset exEnv exMsgNoMime (exState "queued")).1.db 1 =
        some none) := by
  refine ⟨?_, ?_, ?_⟩
  · exact (dispatcher_failure_surfacing exEnvDownFail exMsg (exState "queued") 1
      (exAsset "queued") rfl rfl).1 "text/plain" "S3Error: connection refused"
      rfl rfl rfl
  · exact (dispatcher_failure_surfacing exEnv exMsg (exState "queued") 1
      (exAsset "queued") rfl rfl).2.2.1 "text/plain"
      (update_processing_status (exState "queued") 1 "processing" none).1 []
      rfl rfl rfl rfl
  · exact (dispatcher_failure_surfacing exEnv exMsgNoMime (exState "queued") 1
      (exAsset "queued") rfl rfl).2.2.2.2 rfl

/-- **C5** (amended): status transitions are unguarded in the code: the
dispatcher writes `processing` first whatever the current status
(including `completed` and `failed` on redelivery); re-analysis resets
any existing asset to `queued` unless it is `processing` and unforced —
the 409 conflict being the only guard anywhere — and with `force=true`
even a `processing` asset is reset; and the PUT status endpoint writes
any client-supplied non-empty status string unconditionally to the
durable store (the handler then answers 500, crashing on its dead-code
cache refresh after the write has committed). -/
theorem status_transitions_unguarded :
    (∀ (env : DispatchEnv) (msg : Msg) (s : SysState) (aid : Nat),
      msg.asset_id = some aid →
      (process_asset env msg s).2.take 1 =
        [.statusWrite aid "processing" none]) ∧
    (∀ (s : SysState) (aid : Nat) (a : AssetRow) (p : Nat),
      lookupAsset s.db aid = some a → a.processing_status = "processing" →
      trigger_reanalysis s aid false p =
        (.err 409 "Asset is already being processed", s)) ∧
    (∀ (s : SysState) (aid : Nat) (a : AssetRow) (force : Bool) (p : Nat),
      lookupAsset s.db aid = some a →
      (force = true ∨ a.processing_status ≠ "processing") →
      trigger_reanalysis s aid force p =
        (.ok "Re-analysis triggered", stateAfterReanalysis s aid a.mime_type p)) ∧
    (∀ (s : SysState) (aid : Nat) (st : String), st ≠ "" →
      update_asset_status s aid (some st) =
        (.err 500 "TypeError: object async_generator can not be awaited",
         stateAfterStatusPut s aid st)) := by
  refine ⟨?_, ?_, ?_, ?_⟩
  · intro env msg s aid hid
    exact process_asset_first_write env msg s aid hid
  · intro s aid a p hl hp
    exact reanalysis_conflict s aid a p hl hp
  · intro s aid a force p hl hcase
    unfold trigger_reanalysis
    rw [hl]
    dsimp only
    rw [if_neg ?hneg]
    · rfl
    case hneg =>
      rintro ⟨hf, hs⟩
      rcases hcase with h | h
      · rw [h] at hf
        exact absurd hf (by decide)
      · exact h hs
  · intro s aid st hne
    unfold update_asset_status
    dsimp only
    rw [if_neg hne]
    rfl

/-- Witness for `status_transitions_unguarded`: concrete instances of all
four clauses on the one-asset states. -/
theorem status_transitions_unguarded_witness :
    (process_asset exEnv exMsg (exState "completed")).2.take 1 =
      [.statusWrite 1 "processing" none] ∧
    trigger_reanalysis (exState "processing") 1 false 7 =
      (.err 409 "Asset is already being processed", exState "processing") ∧
    trigger_reanalysis (exState "completed") 1 false 7 =
      (.ok "Re-analysis triggered",
        stateAfterReanalysis (exState "completed") 1 "text/plain" 7) ∧
    update_asset_status (exState "queued") 1 (some "banana") =
      (.err 500 "TypeError: object async_generator can not be awaited",
        stateAfterStatusPut (exState "queued") 1 "banana") := by
  obtain ⟨h1, h2, h3, h4⟩ := status_transitions_unguarded
  exact ⟨h1 exEnv exMsg (exState "completed") 1 rfl,
    h2 (exState "processing") 1 (exAsset "processing") 7 rfl rfl,
    h3 (exState "completed") 1 (exAsset "completed") false 7 rfl
      (Or.inr (by decide)),
    h4 (exState "queued") 1 "banana" (by decide)⟩

/-- **C4** (confirmed): `_store_analysis_results` writes one transaction
in the order all segments, then all features, then all embeddings — the
committed state appends exactly those row blocks and the write trace is
the three insert blocks in that order — and it is all-or-nothing: if any
INSERT raises, the dispatcher run leaves the segment, feature and
embedding tables exactly as they started. -/
theorem store_results_transactional :
    (∀ (ef : Nat → Option String) (aid : Nat) (r : AnalysisResult)
        (s s2 : SysState) (evs : List Ev),
      store_analysis_results ef aid r s = .ok (s2, evs) →
      s2.db.segments = s.db.segments ++
          segRowsFrom aid r.segments s.nextId ∧
      s2.db.features = s.db.features ++
          featRowsFrom r.features (s.nextId + r.segments.length) ∧
      s2.db.embeddings = s.db.embeddings ++
          embRowsFrom aid r.embeddings
            (s.nextId + r.segments.length + r.features.length) ∧
      evs = rowEvs .segment r.segments.length s.nextId ++
            rowEvs .feature r.features.length (s.nextId + r.segments.length) ++
            rowEvs .embedding r.embeddings.length
              (s.nextId + r.segments.length + r.features.length)) ∧
    (∀ (env : DispatchEnv) (msg : Msg) (s : SysState) (aid : Nat)
        (mt : String) (a : AssetRow) (err : String),
      msg.asset_id = some aid → msg.mime_type = some mt →
      get_asset_data s.db aid = some a → env.downloadFail = none →
      store_analysis_results env.execFail aid
          (env.analyzeResult (get_analyzer_type mt))
          (update_processing_status s aid "processing" none).1 = .error err →
      (process_asset env msg s).1.db.segments = s.db.segments ∧
      (process_asset env msg s).1.db.features = s.db.features ∧
      (process_asset env msg s).1.db.embeddings = s.db.embeddings) := by
  constructor
  · intro ef aid r s s2 evs h
    obtain ⟨hs2, hev⟩ := store_ok ef aid r s s2 evs h
    subst hs2
    exact ⟨rfl, rfl, rfl, hev⟩
  · intro env msg s aid mt a err hid hmt ha hdl hst
    obtain ⟨-, herr⟩ := process_asset_good_path env msg s aid mt a hid hmt ha hdl
    rw [herr err hst]
    exact ⟨rfl, rfl, rfl⟩

/-- Witness for `store_results_transactional`: the dangling-feature commit
on `exStateSeg`, and a dispatcher run whose every INSERT raises. -/
theorem store_results_transactional_witness :
    (exStoreOut.db.segments = exStateSeg.db.segments ++
        segRowsFrom 1 exResultDangling.segments exStateSeg.nextId ∧
      exStoreOut.db.features = exStateSeg.db.features ++
        featRowsFrom exResultDangling.features
          (exStateSeg.nextId + exResultDangling.segments.length) ∧
      exStoreOut.db.embeddings = exStateSeg.db.embeddings ++
        embRowsFrom 1 exResultDangling.embeddings
          (exStateSeg.nextId + exResultDangling.segments.length +
            exResultDangling.features.length) ∧
      [Ev.rowInsert .feature 10] =
        rowEvs .segment exResultDangling.segments.length exStateSeg.nextId ++
        rowEvs .feature exResultDangling.features.length
          (exStateSeg.nextId + exResultDangling.segments.length) ++
        rowEvs .embedding exResultDangling.embeddings.length
          (exStateSeg.nextId + exResultDangling.segments.length +
            exResultDangling.features.length)) ∧
    ((process_asset exEnvStoreFail exMsg (exState "queued")).1.db.segments =
        (exState "queued").db.segments ∧
      (process_asset exEnvStoreFail exMsg (exState "queued")).1.db.features =
        (exState "queued").db.features ∧
      (process_asset exEnvStoreFail exMsg (exState "queued")).1.db.embeddings =
        (exState "queued").db.embeddings) := by
  obtain ⟨hA, hB⟩ := store_results_transactional
  exact ⟨hA (fun _ => none) 1 exResultDangling exStateSeg exStoreOut
      [Ev.rowInsert .feature 10] rfl,
    hB exEnvStoreFail exMsg (exState "queued") 1 "text/plain"
      (exAsset "queued") "UniqueViolationError" rfl rfl rfl rfl rfl⟩

/-- **C2** (confirmed): dedup idempotence. Starting from any state with
no asset for the digest of `B`, `ingest(B)` then `ingest(B)` again: the
second call returns the same asset id with `duplicate = true` and
changes nothing — no blob write, no row insert, no publish (its state is
the first call's state); and the first call created exactly one asset
row for that digest, one blob and one queue message. -/
theorem ingest_dedup_idempotent (hashFn : List Nat → String) (env : IngestEnv)
    (up : Upload) (s : SysState)
    (hm : env.minioFail = false)
    (hfresh : ∀ a ∈ s.db.assets, a.file_hash ≠ hashFn up.content) :
    respId (upload_asset hashFn env up
        ((upload_asset hashFn env up s).2)).1 =
      respId (upload_asset hashFn env up s).1 ∧
    respId (upload_asset hashFn env up s).1 = some s.nextId ∧
    respDup (upload_asset hashFn env up
        ((upload_asset hashFn env up s).2)).1 = some true ∧
    (upload_asset hashFn env up ((upload_asset hashFn env up s).2)).2 =
      (upload_asset hashFn env up s).2 ∧
    ((upload_asset hashFn env up s).2).db.assets.length =
      s.db.assets.length + 1 ∧
    (((upload_asset hashFn env up s).2).db.assets.filter
        (fun a => a.file_hash = hashFn up.content)).length = 1 ∧
    ((upload_asset hashFn env up s).2).blobs.length = s.blobs.length + 1 ∧
    ((upload_asset hashFn env up s).2).queue.length = s.queue.length + 1 := by
  have hfind : s.db.assets.find? (fun a => a.file_hash = hashFn up.content) =
      none :=
    List.find?_eq_none.2 (fun a hmem => by simpa using hfresh a hmem)
  have h0 : check_duplicate (hashFn up.content) s.db = none := by
    unfold check_duplicate
    rw [hfind]
    rfl
  have e1 : upload_asset hashFn env up s =
      (.ok (ingestedResp hashFn up s), ingestedState hashFn up s) := by
    simp only [upload_asset]
    rw [h0, hm]
    rfl
  have hassets : (ingestedState hashFn up s).db.assets =
      s.db.assets ++ [ingestedRow hashFn up s] := rfl
  have h1 : check_duplicate (hashFn up.content)
      (ingestedState hashFn up s).db = some s.nextId := by
    unfold check_duplicate
    rw [hassets, List.find?_append, hfind]
    simp [List.find?, ingestedRow]
  have e2 : ∀ r : AssetRow,
      lookupAsset (ingestedState hashFn up s).db s.nextId = some r →
      upload_asset hashFn env up (ingestedState hashFn up s) =
        (.ok (dupResp r), ingestedState hashFn up s) := by
    intro r hr
    simp only [upload_asset]
    rw [h1]
    dsimp only
    rw [hr]
    rfl
  cases hl : lookupAsset (ingestedState hashFn up s).db s.nextId with
  | none =>
    exfalso
    have hmem : ingestedRow hashFn up s ∈ (ingestedState hashFn up s).db.assets := by
      rw [hassets]
      exact List.mem_append_right _ (List.mem_singleton_self _)
    have := List.find?_eq_none.1 hl (ingestedRow hashFn up s) hmem
    simp [ingestedRow] at this
  | some r =>
    have hrid : r.id = s.nextId := by
      have := List.find?_some hl
      simpa using this
    rw [e1]
    dsimp only
    rw [e2 r hl]
    dsimp only
    refine ⟨?_, rfl, rfl, rfl, ?_, ?_, ?_, ?_⟩
    · simp [respId, dupResp, ingestedResp, hrid]
    · rw [hassets]
      simp
    · rw [hassets, List.filter_append]
      have hnil : s.db.assets.filter (fun a => a.file_hash = hashFn up.content) =
          [] := by
        rw [List.filter_eq_nil_iff]
        intro a hmem
        simpa using hfresh a hmem
      rw [hnil]
      simp [List.filter, ingestedRow]
    · show (s.blobs ++ _).length = s.blobs.length + 1
      simp
    · show (s.queue ++ _).length = s.queue.length + 1
      simp

/-- Witness for `ingest_dedup_idempotent`: the bytes `[104, 105]` uploaded
twice into the empty system. -/
theorem ingest_dedup_idempotent_witness :
    respId (upload_asset exHashFn {} exUpload
        ((upload_asset exHashFn {} exUpload {}).2)).1 =
      respId (upload_asset exHashFn {} exUpload ({} : SysState)).1 ∧
    respDup (upload_asset exHashFn {} exUpload
        ((upload_asset exHashFn {} exUpload {}).2)).1 = some true ∧
    (upload_asset exHashFn {} exUpload
        ((upload_asset exHashFn {} exUpload {}).2)).2 =
      (upload_asset exHashFn {} exUpload ({} : SysState)).2 ∧
    ((upload_asset exHashFn {} exUpload ({} : SysState)).2).db.assets.length = 1 := by
  obtain ⟨h1, h2, h3, h4, h5, h6, h7, h8⟩ :=
    ingest_dedup_idempotent exHashFn {} exUpload {} rfl (by simp)
  exact ⟨h1, h3, h4, by simpa using h5⟩

end DataFlux
